import Mathlib

/-!
Verification of the imf-creator MIDI decoder and song-event model.

Shallow embedding of the Python sources:
  * `src/imfcreator/midi.py` — `EventType`, `MetaType`, `ControllerType`,
    `SongEvent` (construction invariants, `__eq__`, `__lt__`) and the
    `_EVENT_TYPE_ORDER` priority table;
  * `src/imfcreator/utils.py` — `clamp`;
  * `src/imfcreator/plugins/midifileplugin.py` — `_read_var_length`, the
    chunk loop of `MidiReader._open`, and the payload decoders of
    `MidiReader._read_events` (META sub-dispatch, controller change,
    pitch bend, `get_key_signature`).

Machine bytes are modelled as `Nat` (each in 0..255 where it matters),
Python floats as `ℚ` (the decoder only ever divides exact integers), byte
streams as `List Nat` consumed from the front, and Python exceptions as an
explicit `Except` error type distinguishing the exception class raised.
-/

namespace ImfCreator

/-- Python exception classes the embedded code can raise.  `eof` stands for
the error raised when the byte stream runs out mid-read (the helper module
`imfcreator/plugins/_binary.py` is not part of the repository snapshot, so
the exact exception class at a short read is unknown; no claim depends on
it). -/
inductive PyError where
  | valueError (msg : String)
  | typeError (msg : String)
  | eof
  | indexError
  | zeroDivisionError
  | structError
deriving DecidableEq

/-- `EventType` of midi.py: song event types (MIDI status high nibbles plus
the sysex/meta tag bytes). -/
inductive EventType where
  | NOTE_OFF
  | NOTE_ON
  | POLYPHONIC_KEY_PRESSURE
  | CONTROLLER_CHANGE
  | PROGRAM_CHANGE
  | CHANNEL_KEY_PRESSURE
  | PITCH_BEND
  | F0_SYSEX
  | F7_SYSEX
  | META
deriving DecidableEq

/-- The integer value of each `EventType` member. -/
def EventType.code : EventType → Nat
  | .NOTE_OFF => 0x80
  | .NOTE_ON => 0x90
  | .POLYPHONIC_KEY_PRESSURE => 0xa0
  | .CONTROLLER_CHANGE => 0xb0
  | .PROGRAM_CHANGE => 0xc0
  | .CHANNEL_KEY_PRESSURE => 0xd0
  | .PITCH_BEND => 0xe0
  | .F0_SYSEX => 0xf0
  | .F7_SYSEX => 0xf7
  | .META => 0xff

/-- `MetaType` of midi.py: the recognized song meta event types. -/
inductive MetaType where
  | SEQUENCE_NUMBER
  | TEXT_EVENT
  | COPYRIGHT
  | TRACK_NAME
  | INSTRUMENT_NAME
  | LYRIC
  | MARKER
  | CUE_POINT
  | PROGRAM_NAME
  | DEVICE_NAME
  | CHANNEL_PREFIX
  | PORT
  | END_OF_TRACK
  | SET_TEMPO
  | SMTPE_OFFSET
  | TIME_SIGNATURE
  | KEY_SIGNATURE
  | SEQUENCER_SPECIFIC
deriving DecidableEq

/-- The integer value of each `MetaType` member. -/
def MetaType.code : MetaType → Nat
  | .SEQUENCE_NUMBER => 0x00
  | .TEXT_EVENT => 0x01
  | .COPYRIGHT => 0x02
  | .TRACK_NAME => 0x03
  | .INSTRUMENT_NAME => 0x04
  | .LYRIC => 0x05
  | .MARKER => 0x06
  | .CUE_POINT => 0x07
  | .PROGRAM_NAME => 0x08
  | .DEVICE_NAME => 0x09
  | .CHANNEL_PREFIX => 0x20
  | .PORT => 0x21
  | .END_OF_TRACK => 0x2f
  | .SET_TEMPO => 0x51
  | .SMTPE_OFFSET => 0x54
  | .TIME_SIGNATURE => 0x58
  | .KEY_SIGNATURE => 0x59
  | .SEQUENCER_SPECIFIC => 0x7f

/-- Python `MetaType(n)`: the member with value `n`, or `none` where the
enum constructor raises `ValueError` (`n` is not the value of any member). -/
def MetaType.ofCode (n : Nat) : Option MetaType :=
  if n = 0x00 then some .SEQUENCE_NUMBER
  else if n = 0x01 then some .TEXT_EVENT
  else if n = 0x02 then some .COPYRIGHT
  else if n = 0x03 then some .TRACK_NAME
  else if n = 0x04 then some .INSTRUMENT_NAME
  else if n = 0x05 then some .LYRIC
  else if n = 0x06 then some .MARKER
  else if n = 0x07 then some .CUE_POINT
  else if n = 0x08 then some .PROGRAM_NAME
  else if n = 0x09 then some .DEVICE_NAME
  else if n = 0x20 then some .CHANNEL_PREFIX
  else if n = 0x21 then some .PORT
  else if n = 0x2f then some .END_OF_TRACK
  else if n = 0x51 then some .SET_TEMPO
  else if n = 0x54 then some .SMTPE_OFFSET
  else if n = 0x58 then some .TIME_SIGNATURE
  else if n = 0x59 then some .KEY_SIGNATURE
  else if n = 0x7f then some .SEQUENCER_SPECIFIC
  else none

/-- The values of the named members of `ControllerType` in midi.py, in
declaration order.  The gaps are exactly the CC numbers the enum leaves
undefined (3, 9, 14-15, 20-31, 35, 41, 46-47, 52-63, 85-90, 102-119). -/
def ControllerType.values : List Nat :=
  [0, 1, 2, 4, 5, 6, 7, 8, 10, 11, 12, 13, 16, 17, 18, 19,
   32, 33, 34, 36, 37, 38, 39, 40, 42, 43, 44, 45, 48, 49, 50, 51,
   64, 65, 66, 67, 68, 69, 70, 71, 72, 73, 74, 75, 76, 77, 78, 79,
   80, 81, 82, 83, 84, 91, 92, 93, 94, 95, 96, 97, 98, 99, 100, 101,
   120, 121, 122, 123, 124, 125, 126, 127]

/-- Python `ControllerType(n)`: `n` itself when it is the value of a member,
`none` where the enum constructor raises `ValueError`. -/
def ControllerType.ofCode (n : Nat) : Option Nat :=
  if n ∈ ControllerType.values then some n else none

/-- A value stored in a `SongEvent` data dictionary (Python is dynamically
typed; the decoder stores ints, a float, bytes/lists of ints, strings and
`MetaType` members). -/
inductive DataValue where
  | num (n : Nat)
  | rat (q : ℚ)
  | str (s : String)
  | bytes (bs : List Nat)
  | meta (m : MetaType)
deriving DecidableEq

/-- `clamp` of utils.py: `max(minimum, min(value, maximum))`. -/
def clamp (value minimum maximum : ℚ) : ℚ :=
  max minimum (min value maximum)

/-- `SongEvent` of midi.py.  `data` is the (ordered) key/value dictionary,
`none` standing for Python `None`; `channel` likewise. -/
structure SongEvent where
  track : Int
  time : ℚ
  type : EventType
  data : Option (List (String × DataValue))
  channel : Option Int
deriving DecidableEq

/-- `_EVENT_TYPE_ORDER` of midi.py: the event-priority table used by
`SongEvent.__eq__` and `SongEvent.__lt__`. -/
def EVENT_TYPE_ORDER : EventType → Nat
  | .NOTE_OFF => 10
  | .NOTE_ON => 100
  | .POLYPHONIC_KEY_PRESSURE => 40
  | .CONTROLLER_CHANGE => 1
  | .PROGRAM_CHANGE => 0
  | .CHANNEL_KEY_PRESSURE => 50
  | .PITCH_BEND => 30
  | .F0_SYSEX => 0
  | .F7_SYSEX => 0
  | .META => 0

/-- `SongEvent.__eq__`: equal iff time, event priority and track agree
(channel and data are deliberately ignored, per the commented-out code). -/
def SongEvent.eq (a b : SongEvent) : Bool :=
  if a.time ≠ b.time then false
  else if EVENT_TYPE_ORDER a.type ≠ EVENT_TYPE_ORDER b.type then false
  else if a.track ≠ b.track then false
  else true

/-- `SongEvent.__lt__`: lexicographic on time, then the priority table,
then track. -/
def SongEvent.lt (a b : SongEvent) : Bool :=
  if a.time < b.time then true
  else if a.time > b.time then false
  else if EVENT_TYPE_ORDER a.type < EVENT_TYPE_ORDER b.type then true
  else if EVENT_TYPE_ORDER a.type > EVENT_TYPE_ORDER b.type then false
  else decide (a.track < b.track)

/-- The tail of `SongEvent.__init__` after the channel checks: the META
`meta_type` check and the field assignment.  Python evaluates
`"meta_type" not in data` on the raw argument, so `data = None` raises
`TypeError` (membership test on `None`), not `ValueError`. -/
def SongEvent.initMetaCheck (track : Int) (time : ℚ) (event_type : EventType)
    (data : Option (List (String × DataValue))) (channel : Option Int) :
    Except PyError SongEvent :=
  if event_type = EventType.META then
    match data with
    | none => Except.error (PyError.typeError "argument of type NoneType is not iterable")
    | some d =>
      if "meta_type" ∈ d.map Prod.fst then
        Except.ok ⟨track, time, event_type, data, channel⟩
      else
        Except.error (PyError.valueError "META events must have a meta_type data entry.")
  else Except.ok ⟨track, time, event_type, data, channel⟩

/-- `SongEvent.__init__` of midi.py: argument validation, then field
assignment.  Raised exceptions become `Except.error`. -/
def SongEvent.init (track : Int) (time : ℚ) (event_type : EventType)
    (data : Option (List (String × DataValue))) (channel : Option Int) :
    Except PyError SongEvent :=
  if event_type = EventType.F0_SYSEX ∨ event_type = EventType.F7_SYSEX ∨
      event_type = EventType.META then
    if channel ≠ none then
      Except.error (PyError.valueError "Channel must be None for sysex and meta events.")
    else SongEvent.initMetaCheck track time event_type data channel
  else
    if channel = none then
      Except.error (PyError.valueError "Channel must be an integer for channel events.")
    else SongEvent.initMetaCheck track time event_type data channel

/-- The accumulation loop of `_read_var_length` in midifileplugin.py, over a
byte list: while the high bit of the byte is set, accumulate
`length * 0x80 + (b &&& 0x7f)`; the terminating byte contributes
`length * 0x80 + b`.  `none` when the stream runs out first. -/
def read_var_length_aux (length : Nat) : List Nat → Option (Nat × List Nat)
  | [] => none
  | b :: rest =>
    if b &&& 0x80 ≠ 0 then read_var_length_aux (length * 0x80 + (b &&& 0x7f)) rest
    else some (length * 0x80 + b, rest)

/-- `_read_var_length` of midifileplugin.py: reads a MIDI variable-length
quantity from the front of the byte list, returning the value and the rest
of the stream. -/
def read_var_length (bytes : List Nat) : Option (Nat × List Nat) :=
  read_var_length_aux 0 bytes

/-- Modelled from the spec: the repository contains no variable-length
encoder, but section 8 states the round trip over "the canonical MIDI
variable-length-quantity encoding" (7 bits per byte, high-bit
continuation).  `encode_var_length_aux m tail` prepends the continuation
bytes of `m` (most significant first, each with the high bit set) to
`tail`. -/
def encode_var_length_aux (m : Nat) (tail : List Nat) : List Nat :=
  if m = 0 then tail
  else encode_var_length_aux (m / 0x80) ((m % 0x80 + 0x80) :: tail)
termination_by m
decreasing_by exact Nat.div_lt_self (Nat.pos_of_ne_zero (by assumption)) (by norm_num)

/-- Modelled from the spec: the canonical MIDI variable-length-quantity
encoding of `n` — continuation bytes of `n / 0x80`, then the low 7 bits of
`n` as the terminating byte (high bit clear). -/
def encode_var_length (n : Nat) : List Nat :=
  encode_var_length_aux (n / 0x80) [n % 0x80]

/-- `128 ^ (number of base-128 continuation digits of m)`: the weight a
prefix accumulator is multiplied by while the continuation bytes of `m`
are decoded. -/
def encode_base (m : Nat) : Nat :=
  if m = 0 then 1 else 0x80 * encode_base (m / 0x80)
termination_by m
decreasing_by exact Nat.div_lt_self (Nat.pos_of_ne_zero (by assumption)) (by norm_num)

/-- The list of key names inside `get_key_signature`
(midifileplugin.py, `MidiReader._read_events`, KEY_SIGNATURE branch). -/
def key_signature_keys : List String :=
  ["Cb", "Gb", "Db", "Ab", "Eb", "Bb", "F",
   "C", "G", "D", "A", "E", "B", "F#",
   "C#", "G#", "D#", "A#"]

/-- Python list subscription once the index has been adjusted for negative
indexing: out of range raises `IndexError` (here `none`). -/
def python_list_get_adjusted (l : List String) (j : Int) : Option String :=
  if 0 ≤ j ∧ j < (l.length : Int) then some (l.getD j.toNat "") else none

/-- Python list subscription `l[i]`: a negative index counts from the end
once; an index out of range (after that adjustment) raises `IndexError`
(here `none`). -/
def python_list_get (l : List String) (i : Int) : Option String :=
  python_list_get_adjusted l (if i < 0 then i + l.length else i)

/-- `get_key_signature` of midifileplugin.py:
`keys[sharps_flats + 7 + major_minor * 3] + "m" * major_minor`.
`sharps_flats` is the signed byte, `major_minor` the unsigned byte of the
KEY_SIGNATURE payload; `none` where Python raises `IndexError`. -/
def get_key_signature (sharps_flats : Int) (major_minor : Nat) : Option String :=
  (python_list_get key_signature_keys (sharps_flats + 7 + (major_minor : Int) * 3)).map
    (fun key => key ++ String.mk (List.replicate major_minor (Char.ofNat 109)))

/-- Read exactly `n` bytes from the front of the stream (`none` when fewer
are available). -/
def read_bytes_exact (n : Nat) (bytes : List Nat) : Option (List Nat × List Nat) :=
  if bytes.length < n then none else some (bytes.take n, bytes.drop n)

/-- The META branch of `MidiReader._read_events` (midifileplugin.py lines
100-162), starting just after the 0xff status byte: read the meta-type
byte (`MetaType(...)` raises `ValueError` on an unrecognized code), read
the variable-length payload length, then dispatch on the meta type.  The
result is the `event_data` dictionary (in insertion order) and the rest of
the stream.  The text types use Python `read(n)` semantics (short reads
return what is available); the fixed-length types check `data_length` and
then read byte by byte. -/
def MidiReader.read_meta_event (bytes : List Nat) :
    Except PyError (List (String × DataValue) × List Nat) :=
  match bytes with
  | [] => Except.error PyError.eof
  | mb :: afterType =>
    match MetaType.ofCode mb with
    | none => Except.error (PyError.valueError "is not a valid MetaType")
    | some meta_type =>
      match read_var_length afterType with
      | none => Except.error PyError.eof
      | some (data_length, body) =>
        if meta_type = MetaType.SEQUENCE_NUMBER then
          if data_length ≠ 2 then
            Except.error (PyError.valueError
              "MetaType.SEQUENCE_NUMBER events should have a data length of 2.")
          else match body with
            | hi :: lo :: rest =>
              Except.ok ([("meta_type", DataValue.meta meta_type),
                ("number", DataValue.num (hi * 0x100 + lo))], rest)
            | _ => Except.error PyError.eof
        else if meta_type ∈ [MetaType.TEXT_EVENT, MetaType.COPYRIGHT,
            MetaType.TRACK_NAME, MetaType.INSTRUMENT_NAME, MetaType.LYRIC,
            MetaType.MARKER, MetaType.CUE_POINT, MetaType.PROGRAM_NAME,
            MetaType.DEVICE_NAME] then
          Except.ok ([("meta_type", DataValue.meta meta_type),
            ("text", DataValue.bytes (body.take data_length))], body.drop data_length)
        else if meta_type = MetaType.CHANNEL_PREFIX then
          if data_length ≠ 1 then
            Except.error (PyError.valueError
              "MetaType.CHANNEL_PREFIX events should have a data length of 1.")
          else match body with
            | ch :: rest =>
              Except.ok ([("meta_type", DataValue.meta meta_type),
                ("channel", DataValue.num ch)], rest)
            | _ => Except.error PyError.eof
        else if meta_type = MetaType.PORT then
          if data_length ≠ 1 then
            Except.error (PyError.valueError
              "MetaType.PORT events should have a data length of 1.")
          else match body with
            | pt :: rest =>
              Except.ok ([("meta_type", DataValue.meta meta_type),
                ("port", DataValue.num pt)], rest)
            | _ => Except.error PyError.eof
        else if meta_type = MetaType.SET_TEMPO then
          if data_length ≠ 3 then
            Except.error (PyError.valueError
              "MetaType.SET_TEMPO events should have a data length of 3.")
          else match body with
            | s1 :: s2 :: s3 :: rest =>
              let speed := s1 * 0x10000 + s2 * 0x100 + s3
              if speed = 0 then Except.error PyError.zeroDivisionError
              else
                Except.ok ([("meta_type", DataValue.meta meta_type),
                  ("bpm", DataValue.rat (60000000 / (speed : ℚ)))], rest)
            | _ => Except.error PyError.eof
        else if meta_type = MetaType.SMTPE_OFFSET then
          if data_length ≠ 5 then
            Except.error (PyError.valueError
              "MetaType.SMTPE_OFFSET events should have a data length of 5.")
          else match body with
            | b1 :: b2 :: b3 :: b4 :: b5 :: rest =>
              Except.ok ([("meta_type", DataValue.meta meta_type),
                ("hours", DataValue.num b1), ("minutes", DataValue.num b2),
                ("seconds", DataValue.num b3), ("frames", DataValue.num b4),
                ("fractional_frames", DataValue.num b5)], rest)
            | _ => Except.error PyError.eof
        else if meta_type = MetaType.TIME_SIGNATURE then
          if data_length ≠ 4 then
            Except.error (PyError.valueError
              "MetaType.TIME_SIGNATURE events should have a data length of 4.")
          else match body with
            | b1 :: b2 :: b3 :: b4 :: rest =>
              Except.ok ([("meta_type", DataValue.meta meta_type),
                ("numerator", DataValue.num b1),
                ("denominator", DataValue.num (2 ^ b2)),
                ("midi_clocks_per_metronome_tick", DataValue.num b3),
                ("number_of_32nd_notes_per_beat", DataValue.num b4)], rest)
            | _ => Except.error PyError.eof
        else if meta_type = MetaType.KEY_SIGNATURE then
          match body with
          | v1 :: v2 :: rest =>
            match get_key_signature (if v1 < 0x80 then (v1 : Int) else (v1 : Int) - 0x100) v2 with
            | some key =>
              Except.ok ([("meta_type", DataValue.meta meta_type),
                ("key", DataValue.str key)], rest)
            | none => Except.error PyError.indexError
          | _ => Except.error PyError.structError
        else
          if data_length ≠ 0 then
            match read_bytes_exact data_length body with
            | some (payload, rest) =>
              Except.ok ([("meta_type", DataValue.meta meta_type),
                ("bytes", DataValue.bytes payload)], rest)
            | none => Except.error PyError.eof
          else Except.ok ([("meta_type", DataValue.meta meta_type)], body)

/-- The CONTROLLER_CHANGE branch of `MidiReader._read_events`
(midifileplugin.py lines 182-186), starting at the first data byte:
`{"controller": ControllerType(_u8(f)), "value": _u8(f)}`.
`ControllerType(...)` raises `ValueError` on a number that is not a named
member. -/
def MidiReader.read_controller_change (bytes : List Nat) :
    Except PyError (List (String × DataValue) × List Nat) :=
  match bytes with
  | c :: rest =>
    match ControllerType.ofCode c with
    | none => Except.error (PyError.valueError "is not a valid ControllerType")
    | some ct =>
      match rest with
      | v :: rest2 =>
        Except.ok ([("controller", DataValue.num ct), ("value", DataValue.num v)], rest2)
      | [] => Except.error PyError.eof
  | [] => Except.error PyError.eof

/-- The PITCH_BEND branch of `MidiReader._read_events` (midifileplugin.py
lines 195-199): `value = (u8 + u8 * 0x80) - 0x2000`, then
`clamp(value / float(0x1fff), -1.0, 1.0)`.  `b1` is the first (lsb) and
`b2` the second (msb) data byte. -/
def MidiReader.pitch_bend_value (b1 b2 : Nat) : ℚ :=
  let value : Int := ((b1 : Int) + (b2 : Int) * 0x80) - 0x2000
  clamp ((value : ℚ) / (0x1fff : ℚ)) (-1) 1

/-- The chunk loop of `MidiReader._open` (midifileplugin.py lines 48-61),
with the file abstracted to its chunk sequence (tag, body) and
`_read_events` abstracted to recording the `(track_number, body)` it is
called with — every event decoded from that body is constructed with
exactly that track number (line 205).  A chunk whose tag is not `MTrk` is
skipped; `track_number += 1` runs once per chunk of any kind. -/
def MidiReader.open_track_assignments :
    List (String × List Nat) → Nat → List (Nat × List Nat)
  | [], _ => []
  | (chunk_name, body) :: rest, track_number =>
    if chunk_name ≠ "MTrk" then
      MidiReader.open_track_assignments rest (track_number + 1)
    else
      (track_number, body) :: MidiReader.open_track_assignments rest (track_number + 1)

/-! ## Theorems -/

/-- `SongEvent.lt` decides the lexicographic strict order on
(time, event priority, track). -/
theorem SongEvent.lt_eq_true_iff (a b : SongEvent) :
    SongEvent.lt a b = true ↔
      (a.time < b.time ∨ (a.time = b.time ∧
        (EVENT_TYPE_ORDER a.type < EVENT_TYPE_ORDER b.type ∨
          (EVENT_TYPE_ORDER a.type = EVENT_TYPE_ORDER b.type ∧ a.track < b.track)))) := by
  unfold SongEvent.lt
  split_ifs with h1 h2 h3 h4
  · simp [h1]
  · simp [h1, ne_of_gt h2]
  · have ht : a.time = b.time := le_antisymm (not_lt.mp h2) (not_lt.mp h1)
    simp [ht, h3]
  · have ht : a.time = b.time := le_antisymm (not_lt.mp h2) (not_lt.mp h1)
    simp [ht, h3, ne_of_gt h4]
  · have ht : a.time = b.time := le_antisymm (not_lt.mp h2) (not_lt.mp h1)
    have ho : EVENT_TYPE_ORDER a.type = EVENT_TYPE_ORDER b.type :=
      le_antisymm (not_lt.mp h4) (not_lt.mp h3)
    simp [ht, ho]

/-- C5: the comparison over SongEvents defined by the keys
(time, event priority, track) is a strict order: `__lt__` is transitive,
and no two events are each strictly less than the other. -/
theorem songevent_lt_strict_order (a b c : SongEvent) :
    (SongEvent.lt a b = true → SongEvent.lt b c = true → SongEvent.lt a c = true) ∧
      ¬(SongEvent.lt a b = true ∧ SongEvent.lt b a = true) := by
  constructor
  · intro hab hbc
    rw [SongEvent.lt_eq_true_iff] at hab hbc ⊢
    rcases hab with h | ⟨ht, h⟩
    · rcases hbc with h2 | ⟨ht2, _⟩
      · exact Or.inl (lt_trans h h2)
      · exact Or.inl (ht2 ▸ h)
    · rcases hbc with h2 | ⟨ht2, h2⟩
      · exact Or.inl (ht ▸ h2)
      · refine Or.inr ⟨ht.trans ht2, ?_⟩
        rcases h with hp | ⟨hpe, htr⟩
        · rcases h2 with hp2 | ⟨hpe2, _⟩
          · exact Or.inl (Nat.lt_trans hp hp2)
          · exact Or.inl (hpe2 ▸ hp)
        · rcases h2 with hp2 | ⟨hpe2, htr2⟩
          · exact Or.inl (hpe ▸ hp2)
          · exact Or.inr ⟨hpe.trans hpe2, Int.lt_trans htr htr2⟩
  · rintro ⟨hab, hba⟩
    rw [SongEvent.lt_eq_true_iff] at hab hba
    rcases hab with h | ⟨ht, h⟩ <;> rcases hba with h2 | ⟨ht2, h2⟩
    · exact absurd h2 (not_lt.mpr (le_of_lt h))
    · exact absurd ht2 (ne_of_gt h)
    · exact absurd h2 (not_lt.mpr (le_of_eq ht))
    · rcases h with hp | ⟨hpe, htr⟩ <;> rcases h2 with hp2 | ⟨hpe2, htr2⟩
      · omega
      · omega
      · omega
      · omega

/-- Witness for C5: transitivity applied at three concrete events. -/
theorem songevent_lt_strict_order_witness :
    SongEvent.lt ⟨0, 0, EventType.NOTE_ON, none, some 0⟩
      ⟨0, 2, EventType.NOTE_ON, none, some 0⟩ = true :=
  (songevent_lt_strict_order ⟨0, 0, EventType.NOTE_ON, none, some 0⟩
    ⟨0, 1, EventType.NOTE_ON, none, some 0⟩
    ⟨0, 2, EventType.NOTE_ON, none, some 0⟩).1 (by decide) (by decide)

/-- C6: at an identical timestamp, a NOTE_OFF, PROGRAM_CHANGE,
CONTROLLER_CHANGE or PITCH_BEND event compares strictly before a NOTE_ON
event (whatever the tracks, channels and payloads; the equal-track
NOTE_OFF/NOTE_ON pair of the claim is the special case `a.track =
b.track`). -/
theorem songevent_before_note_on (a b : SongEvent) (h1 : a.time = b.time)
    (h2 : a.type = EventType.NOTE_OFF ∨ a.type = EventType.PROGRAM_CHANGE ∨
      a.type = EventType.CONTROLLER_CHANGE ∨ a.type = EventType.PITCH_BEND)
    (h3 : b.type = EventType.NOTE_ON) :
    SongEvent.lt a b = true := by
  rw [SongEvent.lt_eq_true_iff]
  refine Or.inr ⟨h1, Or.inl ?_⟩
  rcases h2 with h | h | h | h <;> rw [h, h3] <;> decide

/-- Witness for C6: a NOTE_OFF and a NOTE_ON at equal time on the same
track. -/
theorem songevent_before_note_on_witness :
    SongEvent.lt
      ⟨3, 5, EventType.NOTE_OFF, some [("note", DataValue.num 60), ("velocity", DataValue.num 0)], some 0⟩
      ⟨3, 5, EventType.NOTE_ON, some [("note", DataValue.num 60), ("velocity", DataValue.num 100)], some 0⟩
      = true :=
  songevent_before_note_on
    ⟨3, 5, EventType.NOTE_OFF, some [("note", DataValue.num 60), ("velocity", DataValue.num 0)], some 0⟩
    ⟨3, 5, EventType.NOTE_ON, some [("note", DataValue.num 60), ("velocity", DataValue.num 100)], some 0⟩
    rfl (Or.inl rfl) rfl

/-- C10: two SongEvents with equal time, equal track and equal priority
value in `_EVENT_TYPE_ORDER` compare equal under `__eq__`, and neither is
strictly less under `__lt__` — whatever their channels and data payloads.
-/
theorem songevent_equal_priority_indistinguishable (a b : SongEvent)
    (h1 : a.time = b.time) (h2 : a.track = b.track)
    (h3 : EVENT_TYPE_ORDER a.type = EVENT_TYPE_ORDER b.type) :
    SongEvent.eq a b = true ∧ SongEvent.lt a b = false ∧ SongEvent.lt b a = false := by
  refine ⟨?_, ?_, ?_⟩
  · simp [SongEvent.eq, h1, h2, h3]
  · rw [← Bool.not_eq_true, SongEvent.lt_eq_true_iff]
    push_neg
    exact ⟨le_of_eq h1.symm, fun _ => ⟨le_of_eq h3.symm, fun _ => le_of_eq h2.symm⟩⟩
  · rw [← Bool.not_eq_true, SongEvent.lt_eq_true_iff]
    push_neg
    exact ⟨le_of_eq h1, fun _ => ⟨le_of_eq h3, fun _ => le_of_eq h2⟩⟩

/-- Witness for C10: a PROGRAM_CHANGE event and a META event (both
priority 0) at the same time and track, with different channels and
payloads. -/
theorem songevent_equal_priority_indistinguishable_witness :
    SongEvent.eq
        ⟨2, 1, EventType.PROGRAM_CHANGE, some [("program", DataValue.num 5)], some 3⟩
        ⟨2, 1, EventType.META, some [("meta_type", DataValue.meta MetaType.SET_TEMPO)], none⟩
        = true ∧
      SongEvent.lt
        ⟨2, 1, EventType.PROGRAM_CHANGE, some [("program", DataValue.num 5)], some 3⟩
        ⟨2, 1, EventType.META, some [("meta_type", DataValue.meta MetaType.SET_TEMPO)], none⟩
        = false ∧
      SongEvent.lt
        ⟨2, 1, EventType.META, some [("meta_type", DataValue.meta MetaType.SET_TEMPO)], none⟩
        ⟨2, 1, EventType.PROGRAM_CHANGE, some [("program", DataValue.num 5)], some 3⟩
        = false :=
  songevent_equal_priority_indistinguishable
    ⟨2, 1, EventType.PROGRAM_CHANGE, some [("program", DataValue.num 5)], some 3⟩
    ⟨2, 1, EventType.META, some [("meta_type", DataValue.meta MetaType.SET_TEMPO)], none⟩
    rfl rfl rfl

/-- C9: constructing a META SongEvent with no data mapping fails, and with
a `TypeError` from the membership test on `None` — not with the
`ValueError` the construction invariants are documented to raise. -/
theorem songevent_init_meta_none_data_type_error (track : Int) (time : ℚ) :
    SongEvent.init track time EventType.META none none =
        Except.error (PyError.typeError "argument of type NoneType is not iterable") ∧
      ∀ msg : String, SongEvent.init track time EventType.META none none ≠
        Except.error (PyError.valueError msg) := by
  refine ⟨rfl, fun msg h => ?_⟩
  rw [show SongEvent.init track time EventType.META none none =
    Except.error (PyError.typeError "argument of type NoneType is not iterable") from rfl] at h
  exact PyError.noConfusion (Except.error.inj h)

/-- C8: the decoded PITCH_BEND value is the clamp of
`(lsb + msb*128 - 8192) / 8191` to [-1, 1]; the centre 0x2000 maps to 0,
the maximum 0x3FFF maps to 1, and the result always lies in [-1, 1]. -/
theorem pitch_bend_value_spec (lsb msb : Nat) (h1 : lsb ≤ 127) (h2 : msb ≤ 127) :
    MidiReader.pitch_bend_value lsb msb
        = clamp (((lsb : ℚ) + (msb : ℚ) * 128 - 8192) / 8191) (-1) 1 ∧
      MidiReader.pitch_bend_value 0 0x40 = 0 ∧
      MidiReader.pitch_bend_value 0x7f 0x7f = 1 ∧
      -1 ≤ MidiReader.pitch_bend_value lsb msb ∧
      MidiReader.pitch_bend_value lsb msb ≤ 1 := by
  refine ⟨?_, by norm_num [MidiReader.pitch_bend_value, clamp],
    by norm_num [MidiReader.pitch_bend_value, clamp], le_max_left _ _,
    max_le (by norm_num) (min_le_right _ _)⟩
  unfold MidiReader.pitch_bend_value
  push_cast
  norm_num

/-- Witness for C8: the pitch bend spec applied at the centre input. -/
theorem pitch_bend_value_spec_witness :
    MidiReader.pitch_bend_value 0 0x40 = 0 ∧
      -1 ≤ MidiReader.pitch_bend_value 0 0 ∧ MidiReader.pitch_bend_value 0 0 ≤ 1 :=
  ⟨(pitch_bend_value_spec 0 0 (by decide) (by decide)).2.1,
   (pitch_bend_value_spec 0 0 (by decide) (by decide)).2.2.2.1,
   (pitch_bend_value_spec 0 0 (by decide) (by decide)).2.2.2.2⟩

/-- Counterexample for C4: KEY_SIGNATURE raw bytes (0, 1) decode to "Am"
(the relative minor of C), not to "Cm" as the claim states. -/
theorem get_key_signature_minor_of_c_cex :
    get_key_signature 0 1 = some "Am" ∧ get_key_signature 0 1 ≠ some "Cm" := by
  constructor
  · rfl
  · decide

/-- C4 as amended: the two KEY_SIGNATURE bytes are mapped through the fixed
18-entry key table at index `sharps_flats + 7 + major_minor * 3` with "m"
repeated `major_minor` times appended; (0, 0) decodes to "C" and (0, 1)
decodes to "Am". -/
theorem get_key_signature_table_spec (sharps_flats : Int) (major_minor : Nat)
    (h0 : 0 ≤ sharps_flats + 7 + (major_minor : Int) * 3)
    (h1 : sharps_flats + 7 + (major_minor : Int) * 3 < 18) :
    get_key_signature sharps_flats major_minor
        = some (key_signature_keys.getD (sharps_flats + 7 + (major_minor : Int) * 3).toNat ""
            ++ String.mk (List.replicate major_minor (Char.ofNat 109))) ∧
      get_key_signature 0 0 = some "C" ∧ get_key_signature 0 1 = some "Am" := by
  refine ⟨?_, rfl, rfl⟩
  have hlen : (key_signature_keys.length : Int) = 18 := by rfl
  have hneg : ¬(sharps_flats + 7 + (major_minor : Int) * 3 < 0) := by omega
  unfold get_key_signature python_list_get python_list_get_adjusted
  rw [if_neg hneg, if_pos ⟨h0, by rw [hlen]; exact h1⟩]
  rfl

/-- Witness for C4: the table spec applied at the raw bytes (0, 0). -/
theorem get_key_signature_table_spec_witness :
    get_key_signature 0 0 = some "C" :=
  (get_key_signature_table_spec 0 0 (by decide) (by decide)).2.1

/-- Counterexample for C2: CC number 3 lies in 0-127 but is not a named
`ControllerType` member, and decoding a CONTROLLER_CHANGE message with it
fails with `ValueError` instead of succeeding. -/
theorem read_controller_change_cc3_cex :
    MidiReader.read_controller_change [3, 0]
      = Except.error (PyError.valueError "is not a valid ControllerType") := by
  rfl

/-- C2 as amended: decoding a CONTROLLER_CHANGE succeeds exactly for
controller numbers that are named `ControllerType` members; for an
allocated-but-unused number (such as 3, 9 or 20-31) `ControllerType(...)`
raises `ValueError` and decoding fails. -/
theorem read_controller_change_membership (c v : Nat) (rest : List Nat) :
    (c ∈ ControllerType.values →
        MidiReader.read_controller_change (c :: v :: rest)
          = Except.ok ([("controller", DataValue.num c), ("value", DataValue.num v)], rest)) ∧
      (c ∉ ControllerType.values →
        MidiReader.read_controller_change (c :: v :: rest)
          = Except.error (PyError.valueError "is not a valid ControllerType")) := by
  constructor <;> intro h <;>
    simp [MidiReader.read_controller_change, ControllerType.ofCode, h]

/-- Witness for C2: the amended statement applied at the member CC 10
(pan) and at the undefined CC 3. -/
theorem read_controller_change_membership_witness :
    MidiReader.read_controller_change [10, 64]
        = Except.ok ([("controller", DataValue.num 10), ("value", DataValue.num 64)], []) ∧
      MidiReader.read_controller_change [3, 64]
        = Except.error (PyError.valueError "is not a valid ControllerType") :=
  ⟨(read_controller_change_membership 10 64 []).1 (by decide),
   (read_controller_change_membership 3 64 []).2 (by decide)⟩

/-- Counterexample for C3: for the chunk sequence MTrk, foreign, MTrk the
loop hands the second MTrk chunk track number 2, not 1 — `track_number`
is incremented for the skipped foreign chunk as well. -/
theorem open_track_assignments_skipped_chunk_cex :
    MidiReader.open_track_assignments [("MTrk", []), ("Junk", []), ("MTrk", [])] 0
        = [(0, []), (2, [])] ∧
      ¬MidiReader.open_track_assignments [("MTrk", []), ("Junk", []), ("MTrk", [])] 0
        = [(0, []), (1, [])] := by
  constructor
  · rfl
  · decide

/-- C3 as amended: the track index attached to an MTrk chunk's events is
the chunk's 0-based position among all chunks of the file (the counter is
incremented once per chunk of any kind), so interleaved foreign chunks
leave gaps in the track indices of MTrk chunks. -/
theorem open_track_assignments_positional (chunks : List (String × List Nat)) (n : Nat) :
    MidiReader.open_track_assignments chunks n
      = (chunks.enumFrom n).filterMap
          (fun p => if p.2.1 = "MTrk" then some (p.1, p.2.2) else none) := by
  induction chunks generalizing n with
  | nil => rfl
  | cons c rest ih =>
    obtain ⟨chunk_name, body⟩ := c
    by_cases h : chunk_name = "MTrk" <;>
      simp [MidiReader.open_track_assignments, h, List.enumFrom, ih]

/-- Bitwise facts about bytes built by the canonical encoder: a byte
`r + 0x80` (with `r < 0x80`) has its high bit set and low 7 bits `r`; a
byte `r < 0x80` has its high bit clear. -/
theorem land_byte_facts :
    ∀ r < 0x80, (r + 0x80) &&& 0x80 = 0x80 ∧ (r + 0x80) &&& 0x7f = r ∧ r &&& 0x80 = 0 := by
  decide

/-- Decoding the continuation bytes of `m` multiplies the running
accumulator by `encode_base m` and adds `m`. -/
theorem read_var_length_aux_encode (m : Nat) :
    ∀ (length : Nat) (tail : List Nat),
      read_var_length_aux length (encode_var_length_aux m tail)
        = read_var_length_aux (length * encode_base m + m) tail := by
  induction m using Nat.strong_induction_on with
  | _ m ih =>
    intro length tail
    by_cases hm : m = 0
    · subst hm
      rw [encode_var_length_aux, encode_base]
      simp
    · have hlt : m / 0x80 < m := Nat.div_lt_self (Nat.pos_of_ne_zero hm) (by norm_num)
      rw [encode_var_length_aux, encode_base, if_neg hm, if_neg hm]
      rw [ih (m / 0x80) hlt length ((m % 0x80 + 0x80) :: tail)]
      have hr := land_byte_facts (m % 0x80) (Nat.mod_lt _ (by norm_num))
      simp only [read_var_length_aux]
      rw [hr.1, hr.2.1, if_pos (by norm_num : (0x80 : Nat) ≠ 0)]
      have harith : (length * encode_base (m / 0x80) + m / 0x80) * 0x80 + m % 0x80
          = length * (0x80 * encode_base (m / 0x80)) + m := by
        have hdm : 0x80 * (m / 0x80) + m % 0x80 = m := Nat.div_add_mod m 0x80
        calc (length * encode_base (m / 0x80) + m / 0x80) * 0x80 + m % 0x80
            = length * (0x80 * encode_base (m / 0x80)) + (0x80 * (m / 0x80) + m % 0x80) := by
              ring
          _ = length * (0x80 * encode_base (m / 0x80)) + m := by rw [hdm]
      rw [harith]

/-- The canonical encoder distributes over a trailing stream. -/
theorem encode_var_length_aux_append (m : Nat) :
    ∀ (t1 t2 : List Nat),
      encode_var_length_aux m t1 ++ t2 = encode_var_length_aux m (t1 ++ t2) := by
  induction m using Nat.strong_induction_on with
  | _ m ih =>
    intro t1 t2
    by_cases hm : m = 0
    · subst hm
      conv_lhs => rw [encode_var_length_aux]
      conv_rhs => rw [encode_var_length_aux]
      rw [if_pos rfl, if_pos rfl]
    · have hlt : m / 0x80 < m := Nat.div_lt_self (Nat.pos_of_ne_zero hm) (by norm_num)
      conv_lhs => rw [encode_var_length_aux]
      conv_rhs => rw [encode_var_length_aux]
      rw [if_neg hm, if_neg hm, ih (m / 0x80) hlt]
      rfl

/-- Decoding the canonical encoding of `n` from the front of any stream
yields `n` and leaves the rest of the stream untouched. -/
theorem read_var_length_encode_append (n : Nat) (tail : List Nat) :
    read_var_length (encode_var_length n ++ tail) = some (n, tail) := by
  unfold read_var_length encode_var_length
  rw [encode_var_length_aux_append, List.cons_append, List.nil_append]
  rw [read_var_length_aux_encode (n / 0x80) 0 ((n % 0x80) :: tail)]
  have hr := land_byte_facts (n % 0x80) (Nat.mod_lt _ (by norm_num))
  simp only [read_var_length_aux, Nat.zero_mul, Nat.zero_add]
  rw [if_neg (by rw [hr.2.2]; norm_num)]
  have : n / 0x80 * 0x80 + n % 0x80 = n := by omega
  rw [this]

/-- C7: for every `n` in [0, 0x0FFFFFFF], decoding the canonical MIDI
variable-length-quantity encoding of `n` with the accumulation
`value = value * 128 + (byte &&& 0x7f)` yields `n` back. -/
theorem read_var_length_encode_roundtrip (n : Nat) (h : n ≤ 0x0FFFFFFF) :
    read_var_length (encode_var_length n) = some (n, []) := by
  have happ := read_var_length_encode_append n []
  simpa using happ

/-- Witness for C7: the round trip at the top of the claimed range. -/
theorem read_var_length_encode_roundtrip_witness :
    read_var_length (encode_var_length 0x0FFFFFFF) = some (0x0FFFFFFF, []) :=
  read_var_length_encode_roundtrip 0x0FFFFFFF (Nat.le_refl _)

/-- `read_bytes_exact` splits a stream at a known prefix. -/
theorem read_bytes_exact_append (l1 l2 : List Nat) :
    read_bytes_exact l1.length (l1 ++ l2) = some (l1, l2) := by
  unfold read_bytes_exact
  rw [if_neg (by simp only [List.length_append]; omega), List.take_left, List.drop_left]

/-- Counterexample for C1: meta-type byte 0x0a is not a recognized
`MetaType` value, and decoding the META event fails with `ValueError`
(raised by `MetaType(...)` before the payload is even reached) instead of
producing an event with the raw payload. -/
theorem read_meta_event_unknown_code_cex :
    MidiReader.read_meta_event [0x0a, 0x00]
      = Except.error (PyError.valueError "is not a valid MetaType") := by
  rfl

/-- C1 as amended: a META event whose meta-type byte is not a `MetaType`
member makes decoding fail with `ValueError`; the raw-verbatim payload
behavior applies to the recognized meta types without a dedicated decoder
(END_OF_TRACK and SEQUENCER_SPECIFIC), whose payload bytes, if any, are
stored untouched under "bytes". -/
theorem read_meta_event_unrecognized_and_raw :
    (∀ (mb : Nat) (rest : List Nat), MetaType.ofCode mb = none →
        MidiReader.read_meta_event (mb :: rest)
          = Except.error (PyError.valueError "is not a valid MetaType")) ∧
      ∀ (mt : MetaType) (payload rest : List Nat),
        mt = MetaType.END_OF_TRACK ∨ mt = MetaType.SEQUENCER_SPECIFIC →
        MidiReader.read_meta_event
            (MetaType.code mt :: (encode_var_length payload.length ++ (payload ++ rest)))
          = Except.ok (("meta_type", DataValue.meta mt) ::
              (if payload.isEmpty then [] else [("bytes", DataValue.bytes payload)]), rest) := by
  constructor
  · intro mb rest h
    simp [MidiReader.read_meta_event, h]
  · intro mt payload rest hmt
    rcases hmt with h | h <;> subst h <;> cases payload with
    | nil =>
      simp [MidiReader.read_meta_event, MetaType.ofCode, MetaType.code,
        read_var_length_encode_append]
    | cons p ps =>
      have hb := read_bytes_exact_append (p :: ps) rest
      simp only [List.length_cons, List.cons_append] at hb
      simp [MidiReader.read_meta_event, MetaType.ofCode, MetaType.code,
        read_var_length_encode_append, hb]

/-- Witness for C1: a SEQUENCER_SPECIFIC meta event with a two-byte payload
decodes to the raw bytes stored verbatim. -/
theorem read_meta_event_raw_bytes_witness :
    MidiReader.read_meta_event
        (MetaType.code MetaType.SEQUENCER_SPECIFIC ::
          (encode_var_length (List.length [7, 8]) ++ ([7, 8] ++ [])))
      = Except.ok ([("meta_type", DataValue.meta MetaType.SEQUENCER_SPECIFIC),
          ("bytes", DataValue.bytes [7, 8])], []) := by
  have h := read_meta_event_unrecognized_and_raw.2 MetaType.SEQUENCER_SPECIFIC [7, 8] []
    (Or.inr rfl)
  simpa using h

end ImfCreator
